import Mathlib

set_option autoImplicit false
set_option maxHeartbeats 1000000

/- Verification of the CSV-to-PostgreSQL bulk loader (src/run.py): schema
   resolution, chunked CSV reading with a pre-validation pass, and
   failure-isolated per-chunk upload.  The external collaborators (the pandas
   CSV parser and the database sink) are modelled as pure interfaces following
   the behavior the design document ascribes to them; everything else is a
   direct shallow embedding of the functions in src/run.py. -/

universe u

/-- One parsed row of tabular data: its field values. -/
abbrev DataRow := List String

/-- A materialized batch of parsed rows (models a pandas DataFrame). -/
abbrev DataFrame := List DataRow

/-- A raw row of a delimited source file: the list of field strings it
carries.  Source files have no header row; column names come from the
schema manifest. -/
structure RawRow where
  fields : List String
deriving DecidableEq

/-- External parser behavior (pandas, with column names supplied
positionally via names=): a raw row is well-formed against a declared
column count exactly when its field count matches. -/
def rowOk (ncols : Nat) (r : RawRow) : Bool :=
  r.fields.length == ncols

/-- Materializing one batch: every row is parsed against the declared
columns; the materialization raises a parse error when some row in the
batch is malformed, and otherwise yields the parsed rows in order. -/
def parseChunk (columns : List String) (rows : List RawRow) : Except String DataFrame :=
  if rows.all (fun r => rowOk columns.length r)
  then Except.ok (rows.map (fun r => r.fields))
  else Except.error "Error tokenizing data"

/-- Fuel-indexed worker for the chunk partition: peels batches of size s
off the front of the row list.  The fuel only certifies termination; any
fuel at least the row count gives the same partition. -/
def chunkRowsAux {α : Type u} (s : Nat) : Nat → List α → List (List α)
  | _, [] => []
  | 0, _ :: _ => []
  | fuel + 1, r :: rest => ((r :: rest).take s) :: chunkRowsAux s fuel ((r :: rest).drop s)

/-- Splits a row list into consecutive batches of size s (the last batch may
be smaller).  With s = 0 no batch is produced; the pipeline never reaches
this case because the external reader rejects chunksize 0. -/
def chunkRows {α : Type u} (s : Nat) (rows : List α) : List (List α) :=
  if s = 0 then [] else chunkRowsAux s rows.length rows

/-- Model of the chunked pd.read_csv call at src/run.py line 156: the chunk
sequence instantiated for the validation pass.  Each element is the outcome
of materializing one chunk of the file, in file order. -/
def read_csv_pass1 (columns : List String) (s : Nat) (rows : List RawRow) :
    List (Except String DataFrame) :=
  (chunkRows s rows).map (parseChunk columns)

/-- Model of the chunked pd.read_csv call at src/run.py line 166: the
reinitialized chunk sequence that is handed to the upload stage. -/
def read_csv_pass2 (columns : List String) (s : Nat) (rows : List RawRow) :
    List (Except String DataFrame) :=
  (chunkRows s rows).map (parseChunk columns)

/-- Tests whether materializing a chunk succeeded. -/
def isOkE : Except String DataFrame → Bool
  | Except.ok _ => true
  | Except.error _ => false

/-- src/run.py validate_chunks: drains the trial chunk sequence, returning
False as soon as materializing some chunk raises and True when every chunk
of the file parses.  (The tablename/filename parameters of the source
function only feed the log line and are omitted.) -/
def validate_chunks (data : List (Except String DataFrame)) : Bool :=
  data.all isOkE

deriving instance DecidableEq for Except

/-- The value stored in the data mapping for one file: either a whole-file
DataFrame (chunking disabled) or the reinitialized chunk sequence
(chunking enabled, already validated). -/
inductive Item where
  | frame (df : DataFrame)
  | chunks (it : List (Except String DataFrame))
deriving DecidableEq

/-- Reading one file (the body of the per-file try block of src/run.py
read_csv, lines 154-173): with chunking disabled the whole file is parsed
at once (a parse error is caught and the file dropped, i.e. none); with
chunking enabled the trial sequence is drained by validate_chunks and the
file is kept only when validation passes, storing a reinitialized
sequence.  An empty source raises in the external reader (EmptyDataError),
as does chunksize 0 (ValueError); both are caught by the same handler and
drop the file. -/
def read_one_file (columns : List String) (chunkNum : Option Nat) (rows : List RawRow) :
    Option Item :=
  if rows.isEmpty then none
  else
    match chunkNum with
    | none =>
      match parseChunk columns rows with
      | Except.ok df => some (Item.frame df)
      | Except.error _ => none
    | some s =>
      if s = 0 then none
      else if validate_chunks (read_csv_pass1 columns s rows)
      then some (Item.chunks (read_csv_pass2 columns s rows))
      else none

/-- A directory entry of a table directory: a data file with its raw rows,
or a nested directory (which the reader must ignore). -/
inductive Entry where
  | file (name : String) (rows : List RawRow)
  | dir (name : String)
deriving DecidableEq

/-- Tests whether a directory entry is a plain file (os.path.isfile). -/
def Entry.isFile : Entry → Bool
  | Entry.file _ _ => true
  | Entry.dir _ => false

/-- The name of a directory entry. -/
def Entry.name : Entry → String
  | Entry.file n _ => n
  | Entry.dir n => n

/-- The source directory layout: one subdirectory per table name, each
holding directory entries.  os.path.exists on a table directory is
membership in this list. -/
structure FS where
  tables : List (String × List Entry)
deriving DecidableEq

/-- Which log line the reading stage produced for a table: the missing
directory signal, the present-but-empty signal, or actual data. -/
inductive ReadSignal where
  | dirNotFound
  | noNewData
  | gotData
deriving DecidableEq

/-- src/run.py read_csv (lines 124-176): locates the table directory,
keeps only plain-file entries, and builds the per-file data mapping; files
whose read or validation failed are removed from the mapping before it is
returned (the None filter at line 175).  The signal component records
which log line the source function prints before returning an empty
mapping. -/
def read_csv (fs : FS) (tablename : String) (columns : List String)
    (chunkNum : Option Nat) : ReadSignal × List (String × Item) :=
  match fs.tables.find? (fun q => q.1 == tablename) with
  | none => (ReadSignal.dirNotFound, [])
  | some tp =>
    let filenames := tp.2.filter Entry.isFile
    if filenames.isEmpty then (ReadSignal.noNewData, [])
    else
      (ReadSignal.gotData,
        filenames.filterMap (fun en =>
          match en with
          | Entry.file n rows =>
            (read_one_file columns chunkNum rows).map (fun it => (n, it))
          | Entry.dir _ => none))

/-- The external database sink: appending a batch of rows to a named table
either succeeds (none) or raises with an error message (some msg, possibly
spanning several lines, e.g. a generated INSERT body). -/
abbrev Sink := String → DataFrame → Option String

/-- The prefix of a string before its first newline, i.e. the str.split at
newline followed by taking element 0 of src/run.py line 256. -/
def firstLine (s : String) : String :=
  String.mk (s.data.takeWhile (fun c => c ≠ '\n'))

/-- The record of one chunk upload attempt: which table, file and chunk
index it was, whether the store accepted the batch (the boolean return
value of src/run.py to_sql), and the error line surfaced on failure. -/
structure ChunkResult where
  table : String
  file : String
  idx : Nat
  ok : Bool
  reported : Option String
deriving DecidableEq

/-- src/run.py to_sql (lines 232-257): attempts to append one indexed chunk
to the store.  Success returns ok = true; any exception from the store is
caught, its message truncated to its first line for the log, and ok = false
is returned — the failure is never re-raised. -/
def to_sql (sink : Sink) (tablename filename : String) (chunk : Nat × DataFrame) :
    ChunkResult :=
  match sink tablename chunk.2 with
  | none => ⟨tablename, filename, chunk.1, true, none⟩
  | some e => ⟨tablename, filename, chunk.1, false, some (firstLine e)⟩

/-- Draining the reinitialized chunk sequence inside the upload loops of
src/run.py upload_to_db (enumerate(item) at lines 215 and 222): yields the
materialized chunks in order, or none when materializing some chunk raises
— such an exception is not caught in upload_to_db and would end the
process (the reading-stage invariant proves this never happens for data
that passed validation). -/
def iterChunks : List (Except String DataFrame) → Option (List DataFrame)
  | [] => some []
  | Except.ok df :: rest => (iterChunks rest).map (fun dfs => df :: dfs)
  | Except.error _ :: _ => none

/-- How the upload of one file was dispatched: synchronously on the calling
thread (whole-file batch), chunk by chunk on the calling thread (one
execution unit), or fanned out to the bounded worker pool. -/
inductive UploadMode where
  | sync
  | seqChunks
  | pooled
deriving DecidableEq

/-- src/run.py lines 208-226, the per-file body of upload_to_db: a
whole-file DataFrame is uploaded by a single synchronous to_sql call with
chunk index 0; a chunk sequence is enumerated and every chunk dispatched to
to_sql, sequentially when one execution unit is available and through the
worker pool otherwise (pool.map preserves list order, so both produce the
same result list). -/
def upload_item (sink : Sink) (cpu_count : Nat) (tablename filename : String) :
    Item → Option (UploadMode × List ChunkResult)
  | Item.frame df => some (UploadMode.sync, [to_sql sink tablename filename (0, df)])
  | Item.chunks it =>
    match iterChunks it with
    | none => none
    | some dfs =>
      if cpu_count = 1 then
        some (UploadMode.seqChunks, dfs.enum.map (to_sql sink tablename filename))
      else
        some (UploadMode.pooled, dfs.enum.map (to_sql sink tablename filename))

/-- The outcome reported for one file: the chunk results collected in the
results list for that file, and whether all(results) held (the success log
line of src/run.py line 228-229). -/
structure FileReport where
  filename : String
  mode : UploadMode
  results : List ChunkResult
  success : Bool
deriving DecidableEq

/-- The loop of src/run.py upload_to_db (lines 207-230) with its results
accumulator made explicit: results collected for the current file are
appended to the accumulator, the file verdict is all(results), and the
accumulator is reset to [] before the next file.  A none from upload_item
models the uncaught exception ending the process. -/
def upload_files (sink : Sink) (cpu_count : Nat) (tablename : String)
    (results : List ChunkResult) : List (String × Item) → Option (List FileReport)
  | [] => some []
  | (filename, item) :: rest =>
    match upload_item sink cpu_count tablename filename item with
    | none => none
    | some (mode, rs) =>
      let acc := results ++ rs
      match upload_files sink cpu_count tablename [] rest with
      | none => none
      | some tail =>
        some (⟨filename, mode, acc, acc.all (fun r => r.ok)⟩ :: tail)

/-- Model of os.cpu_count() or 1 (src/run.py line 205): the hint is None
when the count is undetermined, and falsy 0 also resolves to 1. -/
def resolveCpu : Option Nat → Nat
  | none => 1
  | some n => if n = 0 then 1 else n

/-- src/run.py upload_to_db: resolves the worker count and runs the per-file
upload loop with an empty results accumulator. -/
def upload_to_db (sink : Sink) (cpuHint : Option Nat) (tablename : String)
    (data : List (String × Item)) : Option (List FileReport) :=
  upload_files sink (resolveCpu cpuHint) tablename [] data

/-- One column descriptor of a manifest entry; only the column_name field
is consumed by the loader. -/
structure ColumnDescriptor where
  column_name : String
deriving DecidableEq

/-- The parsed schemas.json manifest: table name to its ordered column
descriptors. -/
abbrev Schemas := List (String × List ColumnDescriptor)

/-- The fatal configuration errors, each of which makes the source call
sys.exit. -/
inductive ConfigError where
  | missingEnv (key : String)
  | manifestNotFound
  | probeFailed
deriving DecidableEq

/-- The run environment seen by the loader: the process environment
variables, whether the startup probe connection to the store succeeds,
whether schemas.json exists (and its content when it does), and the source
directory tree. -/
structure Env where
  vars : List (String × String)
  probeOk : Bool
  schemasPresent : Bool
  schemas : Schemas
  fs : FS

/-- src/run.py get_env_value: looks a key up in os.environ; a missing key
is a fatal configuration error (sys.exit). -/
def get_env_value (vars : List (String × String)) (key : String) :
    Except ConfigError String :=
  match vars.find? (fun q => q.1 == key) with
  | some p => Except.ok p.2
  | none => Except.error (ConfigError.missingEnv key)

/-- The required connection environment variables (env_vars at src/run.py
line 88). -/
def connection_env_vars : List String :=
  ["db_username", "db_password", "db_host", "db_port", "db_name"]

/-- The dict comprehension of src/run.py line 89: looks every required
connection variable up, stopping at the first missing one. -/
def lookup_env_all (vars : List (String × String)) :
    List String → Except ConfigError (List (String × String))
  | [] => Except.ok []
  | k :: ks =>
    match get_env_value vars k with
    | Except.error err => Except.error err
    | Except.ok v =>
      match lookup_env_all vars ks with
      | Except.error err => Except.error err
      | Except.ok rest => Except.ok ((k, v) :: rest)

/-- Looks a key up in the collected parameter list, with empty default. -/
def paramGet (ps : List (String × String)) (k : String) : String :=
  (((ps.find? (fun q => q.1 == k)).map (fun q => q.2)).getD "")

/-- The connection string of src/run.py line 90. -/
def mk_db_con (ps : List (String × String)) : String :=
  "postgresql://" ++ paramGet ps "db_username" ++ ":" ++ paramGet ps "db_password"
    ++ "@" ++ paramGet ps "db_host" ++ ":" ++ paramGet ps "db_port"
    ++ "/" ++ paramGet ps "db_name"

/-- src/run.py get_con_params (lines 82-104): collects the five connection
variables (sys.exit on the first missing one), builds the connection
string, then opens and immediately releases a probe connection; a probe
failure is fatal (sys.exit). -/
def get_con_params (e : Env) : Except ConfigError String :=
  match lookup_env_all e.vars connection_env_vars with
  | Except.error err => Except.error err
  | Except.ok ps =>
    if e.probeOk then Except.ok (mk_db_con ps) else Except.error ConfigError.probeFailed

/-- src/run.py json_load (lines 38-49): reads schemas.json from the source
root; a missing manifest file is a fatal configuration error (sys.exit). -/
def json_load (e : Env) : Except ConfigError Schemas :=
  if e.schemasPresent then Except.ok e.schemas else Except.error ConfigError.manifestNotFound

/-- src/run.py get_all_tablenames: the subdirectories of the source root,
used when no explicit table list is given. -/
def get_all_tablenames (fs : FS) : List String :=
  fs.tables.map (fun q => q.1)

/-- src/run.py get_table_columns_from_schema (lines 106-122): schemas.get
with [] default; a table with no (or an empty) manifest entry yields [],
which the caller treats as a skip; otherwise the ordered column_name list.
(The src_path parameter of the source function is unused there and
omitted.) -/
def get_table_columns_from_schema (tablename : String) (schemas : Schemas) :
    List String :=
  let table_schema := ((schemas.find? (fun q => q.1 == tablename)).map (fun q => q.2)).getD []
  if table_schema.isEmpty then []
  else table_schema.map (fun jc => jc.column_name)

/-- What happened to one table in the run loop of src/run.py main: skipped
for lack of a manifest entry (read_csv and upload_to_db were not invoked),
skipped because reading produced an empty mapping (upload_to_db was not
invoked; the signal records which read_csv log line fired), or uploaded
with its per-file reports. -/
inductive TableOutcome where
  | skippedNoSchema (table : String)
  | skippedNoData (table : String) (sig : ReadSignal)
  | uploaded (table : String) (reports : List FileReport)
deriving DecidableEq

/-- The body of the per-table loop of src/run.py main (lines 27-36): resolve
columns, skip when empty, read, skip when the mapping is empty, upload.
A none result models the process dying of an exception that upload_to_db
does not catch. -/
def process_table (sink : Sink) (cpuHint : Option Nat) (fs : FS) (schemas : Schemas)
    (chunkNum : Option Nat) (tablename : String) : Option TableOutcome :=
  let columns := get_table_columns_from_schema tablename schemas
  if columns.isEmpty then some (TableOutcome.skippedNoSchema tablename)
  else
    let rd := read_csv fs tablename columns chunkNum
    if rd.2.isEmpty then some (TableOutcome.skippedNoData tablename rd.1)
    else (upload_to_db sink cpuHint tablename rd.2).map (TableOutcome.uploaded tablename)

/-- The per-table loop of src/run.py main: tables are processed strictly in
order; a skipped or partially failed table yields its outcome and the loop
continues with the next table; only an uncaught exception (none) stops the
run. -/
def run_tables (sink : Sink) (cpuHint : Option Nat) (fs : FS) (schemas : Schemas)
    (chunkNum : Option Nat) : List String → Option (List TableOutcome)
  | [] => some []
  | t :: ts =>
    match process_table sink cpuHint fs schemas chunkNum t with
    | none => none
    | some out =>
      match run_tables sink cpuHint fs schemas chunkNum ts with
      | none => none
      | some outs => some (out :: outs)

namespace Loader

/-- src/run.py main (lines 11-36): reads src_path from the environment,
collects and probes the connection parameters, loads the manifest — each
failure aborting the run (Except.error) — then falls back to directory
discovery when no tables were requested and runs the per-table loop. -/
def main (e : Env) (sink : Sink) (cpuHint : Option Nat) (tablenames : List String)
    (chunkNum : Option Nat) : Except ConfigError (Option (List TableOutcome)) :=
  match get_env_value e.vars "src_path" with
  | Except.error err => Except.error err
  | Except.ok _ =>
    match get_con_params e with
    | Except.error err => Except.error err
    | Except.ok _ =>
      match json_load e with
      | Except.error err => Except.error err
      | Except.ok schemas =>
        let tbls := if tablenames.isEmpty then get_all_tablenames e.fs else tablenames
        Except.ok (run_tables sink cpuHint e.fs schemas chunkNum tbls)

end Loader

/- ------------------------------------------------------------------ -/
/- General lemmas about the chunk partition and the reading stage.    -/
/- ------------------------------------------------------------------ -/

/-- The fuel of chunkRowsAux is irrelevant once it covers the row count. -/
theorem chunkRowsAux_congr {α : Type u} (s : Nat) (hs : s ≠ 0) :
    ∀ (f1 f2 : Nat) (rows : List α), rows.length ≤ f1 → rows.length ≤ f2 →
      chunkRowsAux s f1 rows = chunkRowsAux s f2 rows := by
  intro f1
  induction f1 with
  | zero =>
    intro f2 rows h1 _
    have hnil : rows = [] := List.eq_nil_of_length_eq_zero (Nat.le_zero.mp h1)
    subst hnil
    cases f2 <;> rfl
  | succ f1 ih =>
    intro f2 rows h1 h2
    cases rows with
    | nil => cases f2 <;> rfl
    | cons r rest =>
      cases f2 with
      | zero => simp at h2
      | succ f2 =>
        show ((r :: rest).take s) :: chunkRowsAux s f1 ((r :: rest).drop s) =
          ((r :: rest).take s) :: chunkRowsAux s f2 ((r :: rest).drop s)
        congr 1
        apply ih
        · rw [List.length_drop]
          simp only [List.length_cons] at h1 ⊢
          have := Nat.pos_of_ne_zero hs
          omega
        · rw [List.length_drop]
          simp only [List.length_cons] at h2 ⊢
          have := Nat.pos_of_ne_zero hs
          omega

theorem chunkRows_nil {α : Type u} (s : Nat) : chunkRows s ([] : List α) = [] := by
  cases s <;> rfl

theorem chunkRows_zero {α : Type u} (rows : List α) : chunkRows 0 rows = [] := rfl

theorem chunkRows_cons {α : Type u} (s : Nat) (hs : s ≠ 0) (r : α) (rest : List α) :
    chunkRows s (r :: rest) =
      ((r :: rest).take s) :: chunkRows s ((r :: rest).drop s) := by
  unfold chunkRows
  rw [if_neg hs, if_neg hs]
  show ((r :: rest).take s) :: chunkRowsAux s rest.length ((r :: rest).drop s) =
    ((r :: rest).take s) :: chunkRowsAux s ((r :: rest).drop s).length ((r :: rest).drop s)
  congr 1
  apply chunkRowsAux_congr s hs
  · rw [List.length_drop]
    simp only [List.length_cons]
    have := Nat.pos_of_ne_zero hs
    omega
  · exact le_rfl

theorem chunkRows_flatten_le {α : Type u} (s : Nat) (hs : s ≠ 0) :
    ∀ (n : Nat) (rows : List α), rows.length ≤ n → (chunkRows s rows).flatten = rows := by
  intro n
  induction n with
  | zero =>
    intro rows h
    have hrows : rows = [] := List.eq_nil_of_length_eq_zero (Nat.le_zero.mp h)
    subst hrows
    rw [chunkRows_nil]
    rfl
  | succ n ih =>
    intro rows h
    cases rows with
    | nil =>
      rw [chunkRows_nil]
      rfl
    | cons r rest =>
      rw [chunkRows_cons s hs r rest, List.flatten_cons,
        ih ((r :: rest).drop s) ?_, List.take_append_drop]
      have hpos := Nat.pos_of_ne_zero hs
      rw [List.length_drop]
      simp only [List.length_cons] at h ⊢
      omega

/-- The chunk partition reassembles exactly the rows of the file. -/
theorem chunkRows_flatten {α : Type u} (s : Nat) (hs : s ≠ 0) (rows : List α) :
    (chunkRows s rows).flatten = rows :=
  chunkRows_flatten_le s hs rows.length rows le_rfl

/-- Materializing a chunk succeeds exactly when all of its own rows are
well-formed against the declared columns. -/
theorem parseChunk_ok_iff_rows (columns : List String) (c : List RawRow) :
    isOkE (parseChunk columns c) = c.all (fun r => rowOk columns.length r) := by
  cases h : c.all (fun r => rowOk columns.length r) <;>
    simp [parseChunk, isOkE, h]

/-- A chunk sequence with one failing chunk fails validation. -/
theorem validate_chunks_false_of_mem {it : List (Except String DataFrame)}
    {c : Except String DataFrame} (hc : c ∈ it) (hbad : isOkE c = false) :
    validate_chunks it = false := by
  cases h : validate_chunks it
  · rfl
  · have := List.all_eq_true.mp h c hc
    rw [hbad] at this
    cases this

/-- A file kept with a chunk sequence passed validation, and the stored
sequence is the (deterministically identical) reinstantiation of the
validated one. -/
theorem read_one_file_chunks (columns : List String) (chunkNum : Option Nat)
    (rows : List RawRow) (it : List (Except String DataFrame))
    (h : read_one_file columns chunkNum rows = some (Item.chunks it)) :
    validate_chunks it = true ∧
      ∃ s, chunkNum = some s ∧ it = read_csv_pass1 columns s rows := by
  cases hr : rows.isEmpty with
  | true => simp [read_one_file, hr] at h
  | false =>
    cases chunkNum with
    | none =>
      cases hpc : parseChunk columns rows with
      | ok df => simp [read_one_file, hr, hpc] at h
      | error msg => simp [read_one_file, hr, hpc] at h
    | some s =>
      by_cases hs : s = 0
      · simp [read_one_file, hr, hs] at h
      · cases hv : validate_chunks (read_csv_pass1 columns s rows) with
        | false => simp [read_one_file, hr, hs, hv] at h
        | true =>
          simp only [read_one_file, hr, hs, hv, Bool.false_eq_true, if_false,
            if_true, ite_false, ite_true, Option.some.injEq, Item.chunks.injEq] at h
          have hit : it = read_csv_pass2 columns s rows := h.symm
          refine ⟨?_, s, rfl, hit⟩
          rw [hit]
          exact hv

/-- Every entry of the mapping returned by read_csv originates from a
plain-file directory entry of the table's directory whose read_one_file
succeeded with exactly the stored item. -/
theorem read_csv_mem (fs : FS) (tablename : String) (columns : List String)
    (chunkNum : Option Nat) (p : String × Item)
    (hp : p ∈ (read_csv fs tablename columns chunkNum).2) :
    ∃ tp rows, fs.tables.find? (fun q => q.1 == tablename) = some tp ∧
      Entry.file p.1 rows ∈ tp.2 ∧
      read_one_file columns chunkNum rows = some p.2 := by
  cases hfind : fs.tables.find? (fun q => q.1 == tablename) with
  | none => simp [read_csv, hfind] at hp
  | some tp =>
    cases hemp : (tp.2.filter Entry.isFile).isEmpty with
    | true => simp [read_csv, hfind, hemp] at hp
    | false =>
      simp only [read_csv, hfind, hemp, Bool.false_eq_true, if_false, ite_false,
        List.mem_filterMap] at hp
      obtain ⟨en, hen, heq⟩ := hp
      cases en with
      | dir n => cases heq
      | file n rows =>
        simp only [Option.map_eq_some'] at heq
        obtain ⟨it, hit, hpeq⟩ := heq
        refine ⟨tp, rows, rfl, ?_, ?_⟩
        · have : Entry.file n rows ∈ tp.2 := (List.mem_filter.mp hen).1
          rw [← hpeq]
          exact this
        · rw [← hpeq]
          exact hit

/-- A validated chunk sequence is a list of successful materializations. -/
theorem exists_map_ok_of_validate {it : List (Except String DataFrame)}
    (h : validate_chunks it = true) :
    ∃ dfs : List DataFrame, it = dfs.map Except.ok := by
  induction it with
  | nil => exact ⟨[], rfl⟩
  | cons c rest ih =>
    rw [validate_chunks, List.all_cons, Bool.and_eq_true] at h
    obtain ⟨hc, hrest⟩ := h
    cases c with
    | ok df =>
      obtain ⟨dfs, hdfs⟩ := ih hrest
      exact ⟨df :: dfs, by rw [List.map_cons, hdfs]⟩
    | error msg => cases hc

/-- Draining a fully successful chunk sequence yields all of its chunks. -/
theorem iterChunks_map_ok (dfs : List DataFrame) :
    iterChunks (dfs.map Except.ok) = some dfs := by
  induction dfs with
  | nil => rfl
  | cons df rest ih => simp [iterChunks, ih]

/-- Uploading an item whose chunk sequence passed validation never dies of
an uncaught exception: upload_item produces a result list. -/
theorem upload_item_total (sink : Sink) (cpu : Nat) (tablename filename : String)
    (item : Item) (h : ∀ it, item = Item.chunks it → validate_chunks it = true) :
    ∃ m rs, upload_item sink cpu tablename filename item = some (m, rs) := by
  cases item with
  | frame df => exact ⟨UploadMode.sync, [to_sql sink tablename filename (0, df)], rfl⟩
  | chunks it =>
    obtain ⟨dfs, hdfs⟩ := exists_map_ok_of_validate (h it rfl)
    subst hdfs
    refine ⟨if cpu = 1 then UploadMode.seqChunks else UploadMode.pooled,
      dfs.enum.map (to_sql sink tablename filename), ?_⟩
    by_cases hc : cpu = 1 <;> simp [upload_item, iterChunks_map_ok, hc]

/-- When every file's item uploads without an uncaught exception, the whole
per-file loop completes with a report list. -/
theorem upload_files_total (sink : Sink) (cpu : Nat) (tablename : String)
    (data : List (String × Item))
    (h : ∀ pair ∈ data, ∃ m rs,
      upload_item sink cpu tablename pair.1 pair.2 = some (m, rs)) :
    ∃ reports, upload_files sink cpu tablename [] data = some reports := by
  induction data with
  | nil => exact ⟨[], rfl⟩
  | cons pair rest ih =>
    obtain ⟨m, rs, hmr⟩ := h pair (List.mem_cons_self pair rest)
    obtain ⟨tail, htail⟩ := ih (fun q hq => h q (List.mem_cons_of_mem pair hq))
    cases pair with
    | mk f item =>
      exact ⟨⟨f, m, rs, rs.all (fun r => r.ok)⟩ :: tail,
        by simp [upload_files, hmr, htail]⟩

/-- Any chunk sequence stored in the mapping returned by read_csv passed
validation. -/
theorem read_csv_chunks_validated (fs : FS) (tablename : String)
    (columns : List String) (chunkNum : Option Nat) (p : String × Item)
    (hp : p ∈ (read_csv fs tablename columns chunkNum).2)
    (it : List (Except String DataFrame)) (hit : p.2 = Item.chunks it) :
    validate_chunks it = true := by
  obtain ⟨tp, rows, _, _, hro⟩ := read_csv_mem fs tablename columns chunkNum p hp
  rw [hit] at hro
  exact (read_one_file_chunks columns chunkNum rows it hro).1

/-- Structure of a completed per-file upload loop: one report per file, in
order; each file's report holds the chunk results produced by its own
upload_item call and nothing else, and its verdict is the conjunction of
exactly those results. -/
theorem upload_files_spec (sink : Sink) (cpu : Nat) (tablename : String) :
    ∀ (data : List (String × Item)) (reports : List FileReport),
      upload_files sink cpu tablename [] data = some reports →
      reports.length = data.length ∧
      ∀ i (h1 : i < reports.length) (h2 : i < data.length),
        (reports.get ⟨i, h1⟩).filename = (data.get ⟨i, h2⟩).1 ∧
        (∃ m, upload_item sink cpu tablename (data.get ⟨i, h2⟩).1 (data.get ⟨i, h2⟩).2 =
          some (m, (reports.get ⟨i, h1⟩).results)) ∧
        (reports.get ⟨i, h1⟩).success =
          (reports.get ⟨i, h1⟩).results.all (fun r => r.ok) := by
  intro data
  induction data with
  | nil =>
    intro reports h
    simp only [upload_files, Option.some.injEq] at h
    subst h
    refine ⟨rfl, ?_⟩
    intro i h1 h2
    simp at h2
  | cons pair rest ih =>
    intro reports h
    cases pair with
    | mk f item =>
      cases hui : upload_item sink cpu tablename f item with
      | none => simp [upload_files, hui] at h
      | some mrs =>
        cases mrs with
        | mk m rs =>
          cases hrest : upload_files sink cpu tablename [] rest with
          | none => simp [upload_files, hui, hrest] at h
          | some tail =>
            simp only [upload_files, hui, hrest, List.nil_append,
              Option.some.injEq] at h
            subst h
            obtain ⟨hlen, hpt⟩ := ih tail hrest
            refine ⟨by simp [hlen], ?_⟩
            intro i h1 h2
            cases i with
            | zero => exact ⟨rfl, ⟨m, hui⟩, rfl⟩
            | succ j =>
              have hj1 : j < tail.length := by simpa using h1
              have hj2 : j < rest.length := by simpa using h2
              exact hpt j hj1 hj2

/-- Structure of a completed per-table loop: one outcome per requested
table, in order, each produced by process_table on that table alone. -/
theorem run_tables_spec (sink : Sink) (cpuHint : Option Nat) (fs : FS)
    (schemas : Schemas) (chunkNum : Option Nat) :
    ∀ (tns : List String) (outs : List TableOutcome),
      run_tables sink cpuHint fs schemas chunkNum tns = some outs →
      outs.length = tns.length ∧
      ∀ i (h1 : i < tns.length) (h2 : i < outs.length),
        process_table sink cpuHint fs schemas chunkNum (tns.get ⟨i, h1⟩) =
          some (outs.get ⟨i, h2⟩) := by
  intro tns
  induction tns with
  | nil =>
    intro outs h
    simp only [run_tables, Option.some.injEq] at h
    subst h
    refine ⟨rfl, ?_⟩
    intro i h1 h2
    simp at h1
  | cons t ts ih =>
    intro outs h
    cases hpt : process_table sink cpuHint fs schemas chunkNum t with
    | none => simp [run_tables, hpt] at h
    | some out =>
      cases hrest : run_tables sink cpuHint fs schemas chunkNum ts with
      | none => simp [run_tables, hpt, hrest] at h
      | some tail =>
        simp only [run_tables, hpt, hrest, Option.some.injEq] at h
        subst h
        obtain ⟨hlen, hptw⟩ := ih tail hrest
        refine ⟨by simp [hlen], ?_⟩
        intro i h1 h2
        cases i with
        | zero => exact hpt
        | succ j =>
          have hj1 : j < ts.length := by simpa using h1
          have hj2 : j < tail.length := by simpa using h2
          exact hptw j hj1 hj2

/-- A table with no manifest entry resolves to an empty column list and is
skipped outright — no reading, no upload. -/
theorem process_table_no_schema (sink : Sink) (cpuHint : Option Nat) (fs : FS)
    (schemas : Schemas) (chunkNum : Option Nat) (tablename : String)
    (hno : schemas.find? (fun q => q.1 == tablename) = none) :
    process_table sink cpuHint fs schemas chunkNum tablename =
      some (TableOutcome.skippedNoSchema tablename) := by
  simp [process_table, get_table_columns_from_schema, hno]

/-- The filesystem component of the environment is irrelevant to the
connection stage. -/
theorem get_con_params_fs (e : Env) (fs : FS) :
    get_con_params { e with fs := fs } = get_con_params e := rfl

/-- The filesystem component of the environment is irrelevant to loading
the manifest. -/
theorem json_load_fs (e : Env) (fs : FS) :
    json_load { e with fs := fs } = json_load e := rfl

/-- A run that reached the table loop passed all three configuration
stages, and its result is exactly the loop's result on the effective table
list with the environment's manifest. -/
theorem main_ok_run (e : Env) (sink : Sink) (cpuHint : Option Nat)
    (tablenames : List String) (chunkNum : Option Nat)
    (res : Option (List TableOutcome))
    (hmain : Loader.main e sink cpuHint tablenames chunkNum = Except.ok res) :
    run_tables sink cpuHint e.fs e.schemas chunkNum
      (if tablenames.isEmpty then get_all_tablenames e.fs else tablenames) = res := by
  unfold Loader.main at hmain
  cases hsp : get_env_value e.vars "src_path" with
  | error err => simp [hsp] at hmain
  | ok v =>
    cases hcp : get_con_params e with
    | error err => simp [hsp, hcp] at hmain
    | ok con =>
      cases hpres : e.schemasPresent with
      | false => simp [hsp, hcp, json_load, hpres] at hmain
      | true =>
        simp only [hsp, hcp, json_load, hpres, if_true] at hmain
        exact Except.ok.inj hmain

/-- Every ok result of the per-variable lookup loop means every requested
variable was present. -/
theorem lookup_env_all_found (vars : List (String × String)) :
    ∀ (ks : List String) (ps : List (String × String)),
      lookup_env_all vars ks = Except.ok ps →
      ∀ k ∈ ks, vars.find? (fun q => q.1 == k) ≠ none := by
  intro ks
  induction ks with
  | nil =>
    intro ps h k hk
    cases hk
  | cons k0 ks ih =>
    intro ps h k hk
    cases hge : get_env_value vars k0 with
    | error err => simp [lookup_env_all, hge] at h
    | ok v =>
      cases hrest : lookup_env_all vars ks with
      | error err => simp [lookup_env_all, hge, hrest] at h
      | ok rest =>
        rcases List.mem_cons.mp hk with rfl | hk2
        · intro hfn
          unfold get_env_value at hge
          rw [hfn] at hge
          cases hge
        · exact ih rest hrest k hk2

/-- A configuration-stage failure situation: some required connection
variable is absent from the environment, or the schema manifest file is
missing, or the startup probe connection fails. -/
def config_broken (e : Env) : Prop :=
  (∃ k ∈ connection_env_vars, e.vars.find? (fun q => q.1 == k) = none) ∨
    e.schemasPresent = false ∨ e.probeOk = false

instance (e : Env) : Decidable (config_broken e) := by
  unfold config_broken
  infer_instance

/-- A broken configuration makes the run abort with one fixed error,
whatever source tree the filesystem holds and whatever the sink would
answer: the abort happens before any directory is consulted and before
any upload is attempted. -/
theorem main_config_error (e : Env) (h : config_broken e) :
    ∃ err, ∀ (fs : FS) (sink : Sink) (cpuHint : Option Nat)
      (tablenames : List String) (chunkNum : Option Nat),
      Loader.main { e with fs := fs } sink cpuHint tablenames chunkNum =
        Except.error err := by
  cases hsp : get_env_value e.vars "src_path" with
  | error err =>
    exact ⟨err, fun fs sink cpu tns ch => by simp [Loader.main, hsp]⟩
  | ok v =>
    cases hcp : get_con_params e with
    | error err =>
      exact ⟨err, fun fs sink cpu tns ch => by
        simp [Loader.main, hsp, get_con_params_fs, hcp]⟩
    | ok con =>
      cases hpres : e.schemasPresent with
      | false =>
        refine ⟨ConfigError.manifestNotFound, fun fs sink cpu tns ch => ?_⟩
        have hjl : json_load ⟨e.vars, e.probeOk, false, e.schemas, fs⟩ =
            Except.error ConfigError.manifestNotFound := by
          simp [json_load]
        have hcp2 : get_con_params ⟨e.vars, e.probeOk, false, e.schemas, fs⟩ =
            Except.ok con := by
          rw [show get_con_params ⟨e.vars, e.probeOk, false, e.schemas, fs⟩ =
            get_con_params e from rfl]
          exact hcp
        simp [Loader.main, hsp, hcp2, hjl]
      | true =>
        exfalso
        rcases h with ⟨k, hk, hkn⟩ | hpres2 | hprobe
        · unfold get_con_params at hcp
          cases hle : lookup_env_all e.vars connection_env_vars with
          | error err2 => rw [hle] at hcp; cases hcp
          | ok ps => exact lookup_env_all_found e.vars connection_env_vars ps hle k hk hkn
        · rw [hpres] at hpres2
          cases hpres2
        · unfold get_con_params at hcp
          cases hle : lookup_env_all e.vars connection_env_vars with
          | error err2 => rw [hle] at hcp; cases hcp
          | ok ps =>
            rw [hle, hprobe] at hcp
            simp at hcp

/- ------------------------------------------------------------------ -/
/- Concrete fixtures used to instantiate the claim theorems.          -/
/- ------------------------------------------------------------------ -/

def sinkOk : Sink := fun _ _ => none

def sinkBad : Sink := fun _ _ => some "bad insert\nINSERT INTO t VALUES (1)"

def rowsGood : List RawRow := [⟨["1"]⟩, ⟨["2"]⟩, ⟨["3"]⟩]

def rowsBad : List RawRow := [⟨["1"]⟩, ⟨["2", "x"]⟩, ⟨["3"]⟩]

def fsGood : FS := ⟨[("t", [Entry.file "f" rowsGood, Entry.dir "sub"])]⟩

def fsBad : FS := ⟨[("t", [Entry.file "f" rowsBad])]⟩

def dataTwoFiles : List (String × Item) :=
  [("f1", Item.frame [["1"]]), ("f2", Item.frame [["2"]])]

def sinkSel : Sink :=
  fun _ df => if df = [["1"]] then some "boom\ngenerated statement body" else none

def fsNoFiles : FS := ⟨[("t", [Entry.dir "sub"])]⟩

def envC1 : Env :=
  ⟨[("src_path", "/data"), ("db_username", "u"), ("db_password", "p"),
    ("db_host", "h"), ("db_port", "5432"), ("db_name", "d")],
   true, true, [("t", [⟨"a"⟩])], fsGood⟩

def envProbeBad : Env := { envC1 with probeOk := false }

/- ------------------------------------------------------------------ -/
/- Claim theorems.                                                    -/
/- ------------------------------------------------------------------ -/

/-- Claim C3: for every file and every fixed chunk size, the chunk sequence
instantiated for the validation pass and the one reinstantiated for the
upload pass are identical — the same number of chunks, the same chunk at
every index — and the partition genuinely partitions the file (its
concatenation is the file's row list). -/
theorem claim_C3_two_pass_partition_identical (columns : List String) (s : Nat)
    (rows : List RawRow) (hs : 0 < s) :
    read_csv_pass1 columns s rows = read_csv_pass2 columns s rows ∧
    (read_csv_pass1 columns s rows).length = (read_csv_pass2 columns s rows).length ∧
    (∀ i (h1 : i < (read_csv_pass1 columns s rows).length)
        (h2 : i < (read_csv_pass2 columns s rows).length),
        (read_csv_pass1 columns s rows).get ⟨i, h1⟩ =
          (read_csv_pass2 columns s rows).get ⟨i, h2⟩) ∧
    (chunkRows s rows).flatten = rows :=
  ⟨rfl, rfl, fun _ _ _ => rfl, chunkRows_flatten s (Nat.pos_iff_ne_zero.mp hs) rows⟩

theorem claim_C3_witness :
    (0 : Nat) < 2 ∧
    (read_csv_pass1 ["a"] 2 [⟨["1"]⟩, ⟨["2"]⟩, ⟨["3"]⟩] =
        read_csv_pass2 ["a"] 2 [⟨["1"]⟩, ⟨["2"]⟩, ⟨["3"]⟩] ∧
      (read_csv_pass1 ["a"] 2 [⟨["1"]⟩, ⟨["2"]⟩, ⟨["3"]⟩]).length =
        (read_csv_pass2 ["a"] 2 [⟨["1"]⟩, ⟨["2"]⟩, ⟨["3"]⟩]).length ∧
      (∀ i (h1 : i < (read_csv_pass1 ["a"] 2 [⟨["1"]⟩, ⟨["2"]⟩, ⟨["3"]⟩]).length)
          (h2 : i < (read_csv_pass2 ["a"] 2 [⟨["1"]⟩, ⟨["2"]⟩, ⟨["3"]⟩]).length),
          (read_csv_pass1 ["a"] 2 [⟨["1"]⟩, ⟨["2"]⟩, ⟨["3"]⟩]).get ⟨i, h1⟩ =
            (read_csv_pass2 ["a"] 2 [⟨["1"]⟩, ⟨["2"]⟩, ⟨["3"]⟩]).get ⟨i, h2⟩) ∧
      (chunkRows 2 [⟨["1"]⟩, ⟨["2"]⟩, ⟨["3"]⟩]).flatten =
        ([⟨["1"]⟩, ⟨["2"]⟩, ⟨["3"]⟩] : List RawRow)) :=
  ⟨by decide,
    claim_C3_two_pass_partition_identical ["a"] 2 [⟨["1"]⟩, ⟨["2"]⟩, ⟨["3"]⟩] (by decide)⟩

/-- Claim C8: for a chunked read, each element of the chunk sequence is the
materialization of exactly one chunk of the partition, and that
materialization fails exactly when the chunk itself contains a malformed
row — malformed rows elsewhere in the file leave this chunk's parse
untouched, so a parse failure is scoped to the chunk being materialized,
not the whole file. -/
theorem claim_C8_parse_failure_scoped_to_chunk (columns : List String) (s : Nat)
    (rows : List RawRow) :
    read_csv_pass1 columns s rows = (chunkRows s rows).map (parseChunk columns) ∧
    ∀ c ∈ chunkRows s rows,
      isOkE (parseChunk columns c) = c.all (fun r => rowOk columns.length r) :=
  ⟨rfl, fun c _ => parseChunk_ok_iff_rows columns c⟩

/-- Claim C2: for a chunked file in which some chunk fails to materialize,
the validation pass marks the whole file invalid, read_one_file drops it,
and the mapping read_csv returns contains no entry for that file — so no
chunk of it can reach the upload stage. -/
theorem claim_C2_malformed_chunked_file_dropped (fs : FS) (tablename : String)
    (columns : List String) (s : Nat) (rows : List RawRow) (f : String)
    (tp : String × List Entry)
    (hfind : fs.tables.find? (fun q => q.1 == tablename) = some tp)
    (hmem : Entry.file f rows ∈ tp.2)
    (hnd : (tp.2.map Entry.name).Nodup)
    (hbad : ∃ c ∈ read_csv_pass1 columns s rows, isOkE c = false) :
    validate_chunks (read_csv_pass1 columns s rows) = false ∧
    read_one_file columns (some s) rows = none ∧
    ∀ p ∈ (read_csv fs tablename columns (some s)).2, p.1 ≠ f := by
  obtain ⟨c, hc, hcf⟩ := hbad
  have hval : validate_chunks (read_csv_pass1 columns s rows) = false :=
    validate_chunks_false_of_mem hc hcf
  have hrows : rows.isEmpty = false := by
    cases hre : rows.isEmpty
    · rfl
    · exfalso
      have hnil : rows = [] := List.isEmpty_iff.mp hre
      subst hnil
      rw [read_csv_pass1, chunkRows_nil] at hc
      simp at hc
  have hs0 : s ≠ 0 := by
    intro hs
    subst hs
    rw [read_csv_pass1, chunkRows_zero] at hc
    simp at hc
  have hnone : read_one_file columns (some s) rows = none := by
    simp [read_one_file, hrows, hs0, hval]
  refine ⟨hval, hnone, ?_⟩
  intro p hp hpf
  obtain ⟨tp', rows', hfind', hmem', hro⟩ :=
    read_csv_mem fs tablename columns (some s) p hp
  rw [hfind] at hfind'
  have htp : tp' = tp := (Option.some.inj hfind').symm
  subst htp
  have hEq : Entry.file p.1 rows' = Entry.file f rows :=
    List.inj_on_of_nodup_map hnd hmem' hmem (by simp [Entry.name, hpf])
  injection hEq with hn hr
  rw [hr, hnone] at hro
  cases hro

theorem claim_C2_witness :
    (fsBad.tables.find? (fun q => q.1 == "t") = some ("t", [Entry.file "f" rowsBad]) ∧
      Entry.file "f" rowsBad ∈ [Entry.file "f" rowsBad] ∧
      (([Entry.file "f" rowsBad] : List Entry).map Entry.name).Nodup ∧
      (∃ c ∈ read_csv_pass1 ["a"] 1 rowsBad, isOkE c = false)) ∧
    (validate_chunks (read_csv_pass1 ["a"] 1 rowsBad) = false ∧
      read_one_file ["a"] (some 1) rowsBad = none ∧
      ∀ p ∈ (read_csv fsBad "t" ["a"] (some 1)).2, p.1 ≠ "f") :=
  ⟨⟨by decide, by decide, by decide, by decide⟩,
    claim_C2_malformed_chunked_file_dropped fsBad "t" ["a"] 1 rowsBad "f"
      ("t", [Entry.file "f" rowsBad]) (by decide) (by decide) (by decide) (by decide)⟩

/-- Claim C10: every entry of the mapping read_csv returns originates from
a plain-file entry whose read (and, when chunked, validation) succeeded
with exactly the stored item; any stored chunk sequence passed validation;
and consequently the upload stage invoked on this mapping always completes
with a report list (no uncaught exception). -/
theorem claim_C10_mapping_only_validated (fs : FS) (tablename : String)
    (columns : List String) (chunkNum : Option Nat) (p : String × Item)
    (hp : p ∈ (read_csv fs tablename columns chunkNum).2) :
    (∃ tp rows, fs.tables.find? (fun q => q.1 == tablename) = some tp ∧
      Entry.file p.1 rows ∈ tp.2 ∧ read_one_file columns chunkNum rows = some p.2) ∧
    (∀ it, p.2 = Item.chunks it → validate_chunks it = true) ∧
    (∀ (sink : Sink) (cpuHint : Option Nat), ∃ reports,
      upload_to_db sink cpuHint tablename
        (read_csv fs tablename columns chunkNum).2 = some reports) := by
  refine ⟨read_csv_mem _ _ _ _ _ hp,
    fun it hit => read_csv_chunks_validated _ _ _ _ _ hp it hit, ?_⟩
  intro sink cpuHint
  unfold upload_to_db
  apply upload_files_total
  intro pair hpair
  apply upload_item_total
  intro it hit
  exact read_csv_chunks_validated _ _ _ _ _ hpair it hit

theorem claim_C10_witness :
    (("f", Item.chunks (read_csv_pass2 ["a"] 2 rowsGood)) ∈
      (read_csv fsGood "t" ["a"] (some 2)).2) ∧
    ((∃ tp rows, fsGood.tables.find? (fun q => q.1 == "t") = some tp ∧
      Entry.file ("f", Item.chunks (read_csv_pass2 ["a"] 2 rowsGood)).1 rows ∈ tp.2 ∧
      read_one_file ["a"] (some 2) rows =
        some ("f", Item.chunks (read_csv_pass2 ["a"] 2 rowsGood)).2) ∧
    (∀ it, ("f", Item.chunks (read_csv_pass2 ["a"] 2 rowsGood)).2 = Item.chunks it →
      validate_chunks it = true) ∧
    (∀ (sink : Sink) (cpuHint : Option Nat), ∃ reports,
      upload_to_db sink cpuHint "t" (read_csv fsGood "t" ["a"] (some 2)).2 =
        some reports)) :=
  ⟨by decide,
    claim_C10_mapping_only_validated fsGood "t" ["a"] (some 2)
      ("f", Item.chunks (read_csv_pass2 ["a"] 2 rowsGood)) (by decide)⟩

theorem claim_C8_witness :
    read_csv_pass1 ["a"] 1 [⟨["1"]⟩, ⟨["2", "x"]⟩] =
        (chunkRows 1 [⟨["1"]⟩, ⟨["2", "x"]⟩]).map (parseChunk ["a"]) ∧
    ∀ c ∈ chunkRows 1 [⟨["1"]⟩, ⟨["2", "x"]⟩],
      isOkE (parseChunk ["a"] c) = c.all (fun r => rowOk (["a"] : List String).length r) :=
  claim_C8_parse_failure_scoped_to_chunk ["a"] 1 [⟨["1"]⟩, ⟨["2", "x"]⟩]

/-- Claim C4: when the upload stage completes, it yields one report per
file of the mapping, in order — so a partially failed file does not block
later files — and each file's verdict equals the conjunction of exactly
the chunk results its own upload_item call produced, untouched by any
other file's results. -/
theorem claim_C4_file_verdict_and_of_own_chunks (sink : Sink) (cpuHint : Option Nat)
    (tablename : String) (data : List (String × Item)) (reports : List FileReport)
    (h : upload_to_db sink cpuHint tablename data = some reports) :
    reports.length = data.length ∧
    ∀ i (h1 : i < reports.length) (h2 : i < data.length),
      (reports.get ⟨i, h1⟩).filename = (data.get ⟨i, h2⟩).1 ∧
      (∃ m, upload_item sink (resolveCpu cpuHint) tablename
        (data.get ⟨i, h2⟩).1 (data.get ⟨i, h2⟩).2 =
          some (m, (reports.get ⟨i, h1⟩).results)) ∧
      (reports.get ⟨i, h1⟩).success =
        (reports.get ⟨i, h1⟩).results.all (fun r => r.ok) :=
  upload_files_spec sink (resolveCpu cpuHint) tablename data reports h

theorem claim_C4_witness :
    (upload_to_db sinkSel (some 1) "t" dataTwoFiles =
      some [⟨"f1", UploadMode.sync, [⟨"t", "f1", 0, false, some "boom"⟩], false⟩,
            ⟨"f2", UploadMode.sync, [⟨"t", "f2", 0, true, none⟩], true⟩]) ∧
    (([⟨"f1", UploadMode.sync, [⟨"t", "f1", 0, false, some "boom"⟩], false⟩,
       ⟨"f2", UploadMode.sync, [⟨"t", "f2", 0, true, none⟩], true⟩] :
        List FileReport).length = dataTwoFiles.length ∧
      ∀ i (h1 : i < ([⟨"f1", UploadMode.sync, [⟨"t", "f1", 0, false, some "boom"⟩], false⟩,
          ⟨"f2", UploadMode.sync, [⟨"t", "f2", 0, true, none⟩], true⟩] :
            List FileReport).length) (h2 : i < dataTwoFiles.length),
        (([⟨"f1", UploadMode.sync, [⟨"t", "f1", 0, false, some "boom"⟩], false⟩,
           ⟨"f2", UploadMode.sync, [⟨"t", "f2", 0, true, none⟩], true⟩] :
            List FileReport).get ⟨i, h1⟩).filename = (dataTwoFiles.get ⟨i, h2⟩).1 ∧
        (∃ m, upload_item sinkSel (resolveCpu (some 1)) "t"
          (dataTwoFiles.get ⟨i, h2⟩).1 (dataTwoFiles.get ⟨i, h2⟩).2 =
            some (m, (([⟨"f1", UploadMode.sync, [⟨"t", "f1", 0, false, some "boom"⟩], false⟩,
              ⟨"f2", UploadMode.sync, [⟨"t", "f2", 0, true, none⟩], true⟩] :
                List FileReport).get ⟨i, h1⟩).results)) ∧
        (([⟨"f1", UploadMode.sync, [⟨"t", "f1", 0, false, some "boom"⟩], false⟩,
           ⟨"f2", UploadMode.sync, [⟨"t", "f2", 0, true, none⟩], true⟩] :
            List FileReport).get ⟨i, h1⟩).success =
          (([⟨"f1", UploadMode.sync, [⟨"t", "f1", 0, false, some "boom"⟩], false⟩,
             ⟨"f2", UploadMode.sync, [⟨"t", "f2", 0, true, none⟩], true⟩] :
              List FileReport).get ⟨i, h1⟩).results.all (fun r => r.ok)) :=
  ⟨by decide,
    claim_C4_file_verdict_and_of_own_chunks sinkSel (some 1) "t" dataTwoFiles
      [⟨"f1", UploadMode.sync, [⟨"t", "f1", 0, false, some "boom"⟩], false⟩,
       ⟨"f2", UploadMode.sync, [⟨"t", "f2", 0, true, none⟩], true⟩] (by decide)⟩

/-- Claim C6: with the chunk size unset, reading a (nonempty, well-formed)
file yields exactly one whole-file batch — the frame holds every row of
the file — and that lone batch is uploaded synchronously on the calling
thread by a single to_sql call with chunk index 0, never through the
worker pool. -/
theorem claim_C6_unchunked_single_sync_upload (columns : List String)
    (rows : List RawRow) (df : DataFrame) (sink : Sink) (cpuHint : Option Nat)
    (tablename filename : String)
    (hne : rows ≠ [])
    (hok : parseChunk columns rows = Except.ok df) :
    read_one_file columns none rows = some (Item.frame df) ∧
    df = rows.map (fun r => r.fields) ∧
    upload_item sink (resolveCpu cpuHint) tablename filename (Item.frame df) =
      some (UploadMode.sync, [to_sql sink tablename filename (0, df)]) := by
  refine ⟨?_, ?_, rfl⟩
  · have hemp : rows.isEmpty = false := by
      cases rows with
      | nil => exact absurd rfl hne
      | cons r rest => rfl
    simp [read_one_file, hemp, hok]
  · unfold parseChunk at hok
    by_cases hall : rows.all (fun r => rowOk columns.length r) = true
    · rw [if_pos hall] at hok
      exact (Except.ok.inj hok).symm
    · rw [if_neg hall] at hok
      cases hok

theorem claim_C6_witness :
    (rowsGood ≠ [] ∧ parseChunk ["a"] rowsGood = Except.ok [["1"], ["2"], ["3"]]) ∧
    (read_one_file ["a"] none rowsGood = some (Item.frame [["1"], ["2"], ["3"]]) ∧
      ([["1"], ["2"], ["3"]] : DataFrame) = rowsGood.map (fun r => r.fields) ∧
      upload_item sinkOk (resolveCpu none) "t" "f" (Item.frame [["1"], ["2"], ["3"]]) =
        some (UploadMode.sync, [to_sql sinkOk "t" "f" (0, [["1"], ["2"], ["3"]])])) :=
  ⟨⟨by decide, by decide⟩,
    claim_C6_unchunked_single_sync_upload ["a"] rowsGood [["1"], ["2"], ["3"]]
      sinkOk none "t" "f" (by decide) (by decide)⟩

/-- Claim C7: a chunk upload the store rejects is recorded as a failed
result whose surfaced message is the first line of the store's error, and
the failure never ends the process: the upload of a chunk sequence still
produces a to_sql attempt for every chunk, in index order, whatever the
sink answers. -/
theorem claim_C7_store_rejection_isolated (sink : Sink) (tablename filename : String)
    (i : Nat) (df : DataFrame) (e : String)
    (hrej : sink tablename df = some e) :
    (to_sql sink tablename filename (i, df)).ok = false ∧
    (to_sql sink tablename filename (i, df)).reported = some (firstLine e) ∧
    ∀ (cpu : Nat) (it : List (Except String DataFrame)) (dfs : List DataFrame),
      iterChunks it = some dfs →
      ∃ m, upload_item sink cpu tablename filename (Item.chunks it) =
        some (m, dfs.enum.map (to_sql sink tablename filename)) := by
  refine ⟨by simp [to_sql, hrej], by simp [to_sql, hrej], ?_⟩
  intro cpu it dfs hit
  by_cases hc : cpu = 1
  · exact ⟨UploadMode.seqChunks, by simp [upload_item, hit, hc]⟩
  · exact ⟨UploadMode.pooled, by simp [upload_item, hit, hc]⟩

theorem claim_C7_witness :
    (sinkBad "t" [["1"]] = some "bad insert\nINSERT INTO t VALUES (1)") ∧
    firstLine "bad insert\nINSERT INTO t VALUES (1)" = "bad insert" ∧
    ((to_sql sinkBad "t" "f" (0, [["1"]])).ok = false ∧
      (to_sql sinkBad "t" "f" (0, [["1"]])).reported =
        some (firstLine "bad insert\nINSERT INTO t VALUES (1)") ∧
      ∀ (cpu : Nat) (it : List (Except String DataFrame)) (dfs : List DataFrame),
        iterChunks it = some dfs →
        ∃ m, upload_item sinkBad cpu "t" "f" (Item.chunks it) =
          some (m, dfs.enum.map (to_sql sinkBad "t" "f"))) :=
  ⟨by decide, by decide,
    claim_C7_store_rejection_isolated sinkBad "t" "f" 0 [["1"]]
      "bad insert\nINSERT INTO t VALUES (1)" (by decide)⟩


/-- Claim C1: a table with no entry in the schema manifest is skipped
outright — its outcome is the no-schema skip, produced without reading or
uploading anything — and the run still yields one outcome, in order, for
every table of the effective table list. -/
theorem claim_C1_absent_schema_table_skipped (e : Env) (sink : Sink)
    (cpuHint : Option Nat) (tablenames : List String) (chunkNum : Option Nat)
    (outs : List TableOutcome) (t : String)
    (hmain : Loader.main e sink cpuHint tablenames chunkNum = Except.ok (some outs))
    (hno : e.schemas.find? (fun q => q.1 == t) = none) :
    process_table sink cpuHint e.fs e.schemas chunkNum t =
      some (TableOutcome.skippedNoSchema t) ∧
    outs.length =
      (if tablenames.isEmpty then get_all_tablenames e.fs else tablenames).length ∧
    ∀ i (h1 : i <
        (if tablenames.isEmpty then get_all_tablenames e.fs else tablenames).length)
      (h2 : i < outs.length),
      process_table sink cpuHint e.fs e.schemas chunkNum
        ((if tablenames.isEmpty then get_all_tablenames e.fs else tablenames).get
          ⟨i, h1⟩) = some (outs.get ⟨i, h2⟩) ∧
      ((if tablenames.isEmpty then get_all_tablenames e.fs else tablenames).get
          ⟨i, h1⟩ = t →
        outs.get ⟨i, h2⟩ = TableOutcome.skippedNoSchema t) := by
  have hrun := main_ok_run e sink cpuHint tablenames chunkNum (some outs) hmain
  obtain ⟨hlen, hpt⟩ := run_tables_spec sink cpuHint e.fs e.schemas chunkNum _ outs hrun
  have hskip := process_table_no_schema sink cpuHint e.fs e.schemas chunkNum t hno
  refine ⟨hskip, hlen, ?_⟩
  intro i h1 h2
  refine ⟨hpt i h1 h2, fun ht => ?_⟩
  have hi := hpt i h1 h2
  rw [ht, hskip] at hi
  exact (Option.some.inj hi).symm

theorem claim_C1_witness :
    (Loader.main envC1 sinkOk none ["t", "c"] none = Except.ok (some
      [TableOutcome.uploaded "t"
        [⟨"f", UploadMode.sync, [⟨"t", "f", 0, true, none⟩], true⟩],
       TableOutcome.skippedNoSchema "c"]) ∧
      envC1.schemas.find? (fun q => q.1 == "c") = none) ∧
    (process_table sinkOk none envC1.fs envC1.schemas none "c" =
      some (TableOutcome.skippedNoSchema "c") ∧
    ([TableOutcome.uploaded "t"
        [⟨"f", UploadMode.sync, [⟨"t", "f", 0, true, none⟩], true⟩],
      TableOutcome.skippedNoSchema "c"] : List TableOutcome).length =
      (if (["t", "c"] : List String).isEmpty then get_all_tablenames envC1.fs
        else ["t", "c"]).length ∧
    ∀ i (h1 : i < (if (["t", "c"] : List String).isEmpty
        then get_all_tablenames envC1.fs else ["t", "c"]).length)
      (h2 : i < ([TableOutcome.uploaded "t"
          [⟨"f", UploadMode.sync, [⟨"t", "f", 0, true, none⟩], true⟩],
        TableOutcome.skippedNoSchema "c"] : List TableOutcome).length),
      process_table sinkOk none envC1.fs envC1.schemas none
        ((if (["t", "c"] : List String).isEmpty then get_all_tablenames envC1.fs
          else ["t", "c"]).get ⟨i, h1⟩) =
        some (([TableOutcome.uploaded "t"
            [⟨"f", UploadMode.sync, [⟨"t", "f", 0, true, none⟩], true⟩],
          TableOutcome.skippedNoSchema "c"] : List TableOutcome).get ⟨i, h2⟩) ∧
      ((if (["t", "c"] : List String).isEmpty then get_all_tablenames envC1.fs
          else ["t", "c"]).get ⟨i, h1⟩ = "c" →
        ([TableOutcome.uploaded "t"
            [⟨"f", UploadMode.sync, [⟨"t", "f", 0, true, none⟩], true⟩],
          TableOutcome.skippedNoSchema "c"] : List TableOutcome).get ⟨i, h2⟩ =
          TableOutcome.skippedNoSchema "c")) :=
  ⟨⟨by decide, by decide⟩,
    claim_C1_absent_schema_table_skipped envC1 sinkOk none ["t", "c"] none
      [TableOutcome.uploaded "t"
        [⟨"f", UploadMode.sync, [⟨"t", "f", 0, true, none⟩], true⟩],
       TableOutcome.skippedNoSchema "c"] "c" (by decide) (by decide)⟩

/-- Claim C5: every configuration error — a missing required connection
environment variable, a missing schemas manifest, or a failed startup
probe — aborts the whole run with an error, and the aborted run's result
is the same whatever filesystem, sink or worker count it is given: no
table directory is listed or read and no upload happens before the
abort. -/
theorem claim_C5_config_error_aborts (e : Env) (h : config_broken e) :
    ∀ (fs : FS) (sink : Sink) (cpuHint : Option Nat) (tablenames : List String)
      (chunkNum : Option Nat),
      (∃ err, Loader.main { e with fs := fs } sink cpuHint tablenames chunkNum =
        Except.error err) ∧
      (∀ (fs2 : FS) (sink2 : Sink) (cpuHint2 : Option Nat),
        Loader.main { e with fs := fs } sink cpuHint tablenames chunkNum =
          Loader.main { e with fs := fs2 } sink2 cpuHint2 tablenames chunkNum) := by
  obtain ⟨err, hall⟩ := main_config_error e h
  intro fs sink cpuHint tablenames chunkNum
  refine ⟨⟨err, hall fs sink cpuHint tablenames chunkNum⟩, ?_⟩
  intro fs2 sink2 cpuHint2
  rw [hall fs sink cpuHint tablenames chunkNum,
    hall fs2 sink2 cpuHint2 tablenames chunkNum]

theorem claim_C5_witness :
    (∃ err, Loader.main { envProbeBad with fs := fsBad } sinkOk none ["t"] none =
      Except.error err) ∧
    (∀ (fs2 : FS) (sink2 : Sink) (cpuHint2 : Option Nat),
      Loader.main { envProbeBad with fs := fsBad } sinkOk none ["t"] none =
        Loader.main { envProbeBad with fs := fs2 } sink2 cpuHint2 ["t"] none) :=
  claim_C5_config_error_aborts envProbeBad (Or.inr (Or.inr rfl)) fsBad sinkOk
    none ["t"] none

/-- Claim C9: reading a table's source distinguishes a missing table
directory (the directory-not-found signal, empty mapping) from a present
but file-less directory (the no-new-data signal, empty mapping); mapping
entries only ever come from plain-file directory entries, never from
nested directories; and a table whose read returned an empty mapping is
skipped while the per-table loop continues with the remaining tables. -/
theorem claim_C9_read_signals_and_skip (fs : FS) (t : String)
    (columns : List String) (chunkNum : Option Nat) :
    (fs.tables.find? (fun q => q.1 == t) = none →
      read_csv fs t columns chunkNum = (ReadSignal.dirNotFound, [])) ∧
    (∀ tp, fs.tables.find? (fun q => q.1 == t) = some tp →
      tp.2.filter Entry.isFile = [] →
      read_csv fs t columns chunkNum = (ReadSignal.noNewData, [])) ∧
    (∀ p ∈ (read_csv fs t columns chunkNum).2,
      ∃ tp rows, fs.tables.find? (fun q => q.1 == t) = some tp ∧
        Entry.file p.1 rows ∈ tp.2) ∧
    (∀ (sink : Sink) (cpuHint : Option Nat) (schemas : Schemas)
      (rest : List String),
      get_table_columns_from_schema t schemas = columns →
      columns ≠ [] →
      (read_csv fs t columns chunkNum).2 = [] →
      run_tables sink cpuHint fs schemas chunkNum (t :: rest) =
        (run_tables sink cpuHint fs schemas chunkNum rest).map
          (fun outs =>
            TableOutcome.skippedNoData t (read_csv fs t columns chunkNum).1 ::
              outs)) := by
  refine ⟨?_, ?_, ?_, ?_⟩
  · intro hfind
    simp [read_csv, hfind]
  · intro tp hfind hemp
    simp [read_csv, hfind, hemp]
  · intro p hp
    obtain ⟨tp, rows, h1, h2, _⟩ := read_csv_mem fs t columns chunkNum p hp
    exact ⟨tp, rows, h1, h2⟩
  · intro sink cpuHint schemas rest hcols hne hdat
    have hne2 : columns.isEmpty = false := by
      cases columns with
      | nil => exact absurd rfl hne
      | cons c cs => rfl
    have hproc : process_table sink cpuHint fs schemas chunkNum t =
        some (TableOutcome.skippedNoData t (read_csv fs t columns chunkNum).1) := by
      simp [process_table, hcols, hne2, hdat]
    cases hrest : run_tables sink cpuHint fs schemas chunkNum rest with
    | none => simp [run_tables, hproc, hrest]
    | some outs => simp [run_tables, hproc, hrest]

theorem claim_C9_witness :
    read_csv fsGood "z" ["a"] none = (ReadSignal.dirNotFound, []) ∧
    read_csv fsNoFiles "t" ["a"] none = (ReadSignal.noNewData, []) ∧
    run_tables sinkOk none fsNoFiles [("t", [⟨"a"⟩])] none ["t", "z"] =
      (run_tables sinkOk none fsNoFiles [("t", [⟨"a"⟩])] none ["z"]).map
        (fun outs =>
          TableOutcome.skippedNoData "t" (read_csv fsNoFiles "t" ["a"] none).1 ::
            outs) :=
  ⟨(claim_C9_read_signals_and_skip fsGood "z" ["a"] none).1 (by decide),
   (claim_C9_read_signals_and_skip fsNoFiles "t" ["a"] none).2.1
     ("t", [Entry.dir "sub"]) (by decide) (by decide),
   (claim_C9_read_signals_and_skip fsNoFiles "t" ["a"] none).2.2.2 sinkOk none
     [("t", [⟨"a"⟩])] ["z"] (by decide) (by decide) (by decide)⟩
